import Mathlib

/-
Shallow embedding of src/fsw/src/cs_app.c (cFS Checksum application,
application-level file): application initialization, command-pipe
dispatch, housekeeping, and the Critical Data Store (CDS) persistence
bridge (CS_CreateRestoreStatesFromCDS / CS_UpdateCDS), compiled with
CS_PRESERVE_STATES_ON_PROCESSOR_RESET == true.

External collaborators (CFE services, the command handlers living in
cs_cmds.c / cs_eeprom_cmds.c / ..., table services) are modelled as
environment parameters: result codes and state transformers supplied
from outside, exactly at the call sites where cs_app.c invokes them.
Numeric values of macros defined in headers outside src/ (event IDs,
message IDs, command codes, state values) are fixed representative
constants; the development relies only on which constant appears where
and on their mutual distinctness, matching their role in cs_app.c.
-/

/-- Result code returned by CFE services on success (CFE_SUCCESS). -/
def CFE_SUCCESS : Int := 0

/-- Run status value CFE_ES_RunStatus_APP_RUN. -/
def CFE_ES_RunStatus_APP_RUN : Nat := 1

/-- Checksum state value CS_STATE_ENABLED (from cs_msgdefs.h, outside src/). -/
def CS_STATE_ENABLED : Nat := 1

/-- Checksum state value CS_STATE_DISABLED (from cs_msgdefs.h, outside src/). -/
def CS_STATE_DISABLED : Nat := 2

/-- Number of per-class checksum states kept in the CDS record
(cs_app.c line 45: 4 tables + OS CS + cFE core). -/
def CS_NUM_DATA_STORE_STATES : Nat := 6

/-- Event ID sent on successful initialization (CS_INIT_INF_EID). -/
def CS_INIT_INF_EID : Nat := 1

/-- Event ID sent for an invalid command pipe message ID (CS_MID_ERR_EID). -/
def CS_MID_ERR_EID : Nat := 2

/-- Event ID sent for an invalid ground command code (CS_CC1_ERR_EID). -/
def CS_CC1_ERR_EID : Nat := 3

/-- Event ID sent for an invalid message length (CS_LEN_ERR_EID). -/
def CS_LEN_ERR_EID : Nat := 4

/-- Event ID for a CDS copy error during creation (CS_CR_CDS_CPY_ERR_EID). -/
def CS_CR_CDS_CPY_ERR_EID : Nat := 5

/-- Event ID for a CDS restore error (CS_CR_CDS_RES_ERR_EID). -/
def CS_CR_CDS_RES_ERR_EID : Nat := 6

/-- Event ID for a CDS registration error (CS_CR_CDS_REG_ERR_EID). -/
def CS_CR_CDS_REG_ERR_EID : Nat := 7

/-- Event ID for a CDS update error (CS_UPDATE_CDS_ERR_EID). -/
def CS_UPDATE_CDS_ERR_EID : Nat := 8

/-- Message ID of the CS ground command message (CS_CMD_MID, platform header). -/
def CS_CMD_MID : Nat := 0x189F

/-- Message ID of the housekeeping request (CS_SEND_HK_MID, platform header). -/
def CS_SEND_HK_MID : Nat := 0x18A0

/-- Message ID of the background-cycle wakeup (CS_BACKGROUND_CYCLE_MID). -/
def CS_BACKGROUND_CYCLE_MID : Nat := 0x18A1

/-- Command code CS_NOOP_CC. -/
def CS_NOOP_CC : Nat := 0

/-- Command code CS_RESET_CC. -/
def CS_RESET_CC : Nat := 1

/-- Command code CS_ONESHOT_CC. -/
def CS_ONESHOT_CC : Nat := 2

/-- Command code CS_CANCEL_ONESHOT_CC. -/
def CS_CANCEL_ONESHOT_CC : Nat := 3

/-- Command code CS_ENABLE_ALL_CS_CC. -/
def CS_ENABLE_ALL_CS_CC : Nat := 4

/-- Command code CS_DISABLE_ALL_CS_CC. -/
def CS_DISABLE_ALL_CS_CC : Nat := 5

/-- Command code CS_ENABLE_CFECORE_CC. -/
def CS_ENABLE_CFECORE_CC : Nat := 6

/-- Command code CS_DISABLE_CFECORE_CC. -/
def CS_DISABLE_CFECORE_CC : Nat := 7

/-- Command code CS_REPORT_BASELINE_CFECORE_CC. -/
def CS_REPORT_BASELINE_CFECORE_CC : Nat := 8

/-- Command code CS_RECOMPUTE_BASELINE_CFECORE_CC. -/
def CS_RECOMPUTE_BASELINE_CFECORE_CC : Nat := 9

/-- Command code CS_ENABLE_OS_CC. -/
def CS_ENABLE_OS_CC : Nat := 10

/-- Command code CS_DISABLE_OS_CC. -/
def CS_DISABLE_OS_CC : Nat := 11

/-- Command code CS_REPORT_BASELINE_OS_CC. -/
def CS_REPORT_BASELINE_OS_CC : Nat := 12

/-- Command code CS_RECOMPUTE_BASELINE_OS_CC. -/
def CS_RECOMPUTE_BASELINE_OS_CC : Nat := 13

/-- Command code CS_ENABLE_EEPROM_CC. -/
def CS_ENABLE_EEPROM_CC : Nat := 14

/-- Command code CS_DISABLE_EEPROM_CC. -/
def CS_DISABLE_EEPROM_CC : Nat := 15

/-- Command code CS_REPORT_BASELINE_EEPROM_CC. -/
def CS_REPORT_BASELINE_EEPROM_CC : Nat := 16

/-- Command code CS_RECOMPUTE_BASELINE_EEPROM_CC. -/
def CS_RECOMPUTE_BASELINE_EEPROM_CC : Nat := 17

/-- Command code CS_ENABLE_ENTRY_EEPROM_CC. -/
def CS_ENABLE_ENTRY_EEPROM_CC : Nat := 18

/-- Command code CS_DISABLE_ENTRY_EEPROM_CC. -/
def CS_DISABLE_ENTRY_EEPROM_CC : Nat := 19

/-- Command code CS_GET_ENTRY_ID_EEPROM_CC. -/
def CS_GET_ENTRY_ID_EEPROM_CC : Nat := 20

/-- Command code CS_ENABLE_MEMORY_CC. -/
def CS_ENABLE_MEMORY_CC : Nat := 21

/-- Command code CS_DISABLE_MEMORY_CC. -/
def CS_DISABLE_MEMORY_CC : Nat := 22

/-- Command code CS_REPORT_BASELINE_MEMORY_CC. -/
def CS_REPORT_BASELINE_MEMORY_CC : Nat := 23

/-- Command code CS_RECOMPUTE_BASELINE_MEMORY_CC. -/
def CS_RECOMPUTE_BASELINE_MEMORY_CC : Nat := 24

/-- Command code CS_ENABLE_ENTRY_MEMORY_CC. -/
def CS_ENABLE_ENTRY_MEMORY_CC : Nat := 25

/-- Command code CS_DISABLE_ENTRY_MEMORY_CC. -/
def CS_DISABLE_ENTRY_MEMORY_CC : Nat := 26

/-- Command code CS_GET_ENTRY_ID_MEMORY_CC. -/
def CS_GET_ENTRY_ID_MEMORY_CC : Nat := 27

/-- Command code CS_ENABLE_TABLES_CC. -/
def CS_ENABLE_TABLES_CC : Nat := 28

/-- Command code CS_DISABLE_TABLES_CC. -/
def CS_DISABLE_TABLES_CC : Nat := 29

/-- Command code CS_REPORT_BASELINE_TABLE_CC. -/
def CS_REPORT_BASELINE_TABLE_CC : Nat := 30

/-- Command code CS_RECOMPUTE_BASELINE_TABLE_CC. -/
def CS_RECOMPUTE_BASELINE_TABLE_CC : Nat := 31

/-- Command code CS_ENABLE_NAME_TABLE_CC. -/
def CS_ENABLE_NAME_TABLE_CC : Nat := 32

/-- Command code CS_DISABLE_NAME_TABLE_CC. -/
def CS_DISABLE_NAME_TABLE_CC : Nat := 33

/-- Command code CS_ENABLE_APPS_CC. -/
def CS_ENABLE_APPS_CC : Nat := 34

/-- Command code CS_DISABLE_APPS_CC. -/
def CS_DISABLE_APPS_CC : Nat := 35

/-- Command code CS_REPORT_BASELINE_APP_CC. -/
def CS_REPORT_BASELINE_APP_CC : Nat := 36

/-- Command code CS_RECOMPUTE_BASELINE_APP_CC. -/
def CS_RECOMPUTE_BASELINE_APP_CC : Nat := 37

/-- Command code CS_ENABLE_NAME_APP_CC. -/
def CS_ENABLE_NAME_APP_CC : Nat := 38

/-- Command code CS_DISABLE_NAME_APP_CC. -/
def CS_DISABLE_NAME_APP_CC : Nat := 39

/-- Size in bytes of a CS_NoArgsCmd_t message (header size, defined outside
src/); CS_HousekeepingCmd only compares the actual length against it. -/
def sizeof_CS_NoArgsCmd : Nat := 8

/-- Severity of an event sent through CFE_EVS_SendEvent, restricted to the
two severities cs_app.c uses. -/
inductive EventType where
  | info
  | error
deriving DecidableEq, Repr

/-- One event emitted via CFE_EVS_SendEvent: its event ID and severity. -/
structure CS_Event where
  eid : Nat
  etype : EventType
deriving DecidableEq, Repr

/-- CDS handle as cs_app.c observes it: CFE_RESOURCEID_TEST_DEFINED
distinguishes a defined handle from CFE_ES_CDS_BAD_HANDLE (and from the
zeroed handle left by memset). -/
inductive CDSHandle where
  | defined
  | bad
deriving DecidableEq, Repr

/-- Fields of CS_AppData.HkPacket that cs_app.c reads or writes. -/
structure CS_HkPacket_t where
  CmdCounter : Nat
  CmdErrCounter : Nat
  EepromCSState : Nat
  MemoryCSState : Nat
  AppCSState : Nat
  TablesCSState : Nat
  OSCSState : Nat
  CfeCoreCSState : Nat
  ChecksumState : Nat
  CurrentCSTable : Nat
  CurrentEntryInTable : Nat
  RecomputeInProgress : Bool
  OneShotInProgress : Bool
deriving DecidableEq, Repr

/-- Fields of the global CS_AppData that cs_app.c reads or writes. -/
structure CS_AppData_t where
  HkPacket : CS_HkPacket_t
  DataStoreHandle : CDSHandle
  MaxBytesPerCycle : Nat
  RunStatus : Nat
deriving DecidableEq, Repr

/-- Application state together with the externally shared resources the file
touches: the CDS record (a byte list, or none when the key has never been
registered), the emitted events, and the count of housekeeping telemetry
packets transmitted. -/
structure CS_World where
  app : CS_AppData_t
  cds : Option (List Nat)
  events : List CS_Event
  hkPacketsSent : Nat
deriving DecidableEq, Repr

/-- Platform-configuration macros consumed by cs_app.c (cs_platform_cfg.h,
outside src/): the per-class power-on states and the default byte budget. -/
structure CS_PlatformCfg where
  CS_EEPROM_TBL_POWERON_STATE : Nat
  CS_MEMORY_TBL_POWERON_STATE : Nat
  CS_APPS_TBL_POWERON_STATE : Nat
  CS_TABLES_TBL_POWERON_STATE : Nat
  CS_OSCS_CHECKSUM_STATE : Nat
  CS_CFECORE_CHECKSUM_STATE : Nat
  CS_DEFAULT_BYTES_PER_CYCLE : Nat
deriving DecidableEq, Repr

/-- Outcomes of the three CFE_ES CDS service calls made by cs_app.c.
registerFault = some e means CFE_ES_RegisterCDS returned the error code e
(neither CFE_SUCCESS nor CFE_ES_CDS_ALREADY_EXISTS); registerFault = none
means the call behaved normally (success on a new key, ALREADY_EXISTS on an
existing one, binding the handle in both cases). copyResult and
restoreResult are the codes returned by CFE_ES_CopyToCDS and
CFE_ES_RestoreFromCDS. -/
structure CDSEnv where
  registerFault : Option Int
  copyResult : Int
  restoreResult : Int
deriving DecidableEq, Repr

/-- Result codes of the remaining external calls CS_AppInit makes, in call
order: CFE_EVS_Register, CS_SbInit, CS_InitAllTables, and the final
CFE_EVS_SendEvent; plus the CDS environment for
CS_CreateRestoreStatesFromCDS. -/
structure InitEnv where
  evsRegisterResult : Int
  sbInitResult : Int
  initAllTablesResult : Int
  sendEventResult : Int
  cdsEnv : CDSEnv
deriving DecidableEq, Repr

/-- A software-bus message as cs_app.c observes it through CFE_MSG_GetMsgId,
CFE_MSG_GetFcnCode and CFE_MSG_GetSize. -/
structure CS_Msg where
  msgId : Nat
  fcnCode : Nat
  length : Nat
deriving DecidableEq, Repr

/-- The six per-class checksum states in the exact order cs_app.c stores
them into DataStoreBuffer[0..5] (lines 595-601 and 684-690): EEPROM,
Memory, Apps, Tables, OS core, cFE core. -/
def stateBytes (hk : CS_HkPacket_t) : List Nat :=
  [hk.EepromCSState, hk.MemoryCSState, hk.AppCSState, hk.TablesCSState,
   hk.OSCSState, hk.CfeCoreCSState]

/-- Overwrite of the six per-class states from a restored DataStoreBuffer,
in the exact order of cs_app.c lines 619-625. -/
def applyStoredBytes (hk : CS_HkPacket_t) (b : List Nat) : CS_HkPacket_t :=
  { hk with
    EepromCSState := b.getD 0 0
    MemoryCSState := b.getD 1 0
    AppCSState := b.getD 2 0
    TablesCSState := b.getD 3 0
    OSCSState := b.getD 4 0
    CfeCoreCSState := b.getD 5 0 }

/-- Assignment of the per-class power-on default states, as in cs_app.c
lines 255-261 and the fallback at lines 645-651. -/
def setPoweronStates (cfg : CS_PlatformCfg) (hk : CS_HkPacket_t) : CS_HkPacket_t :=
  { hk with
    EepromCSState := cfg.CS_EEPROM_TBL_POWERON_STATE
    MemoryCSState := cfg.CS_MEMORY_TBL_POWERON_STATE
    AppCSState := cfg.CS_APPS_TBL_POWERON_STATE
    TablesCSState := cfg.CS_TABLES_TBL_POWERON_STATE
    OSCSState := cfg.CS_OSCS_CHECKSUM_STATE
    CfeCoreCSState := cfg.CS_CFECORE_CHECKSUM_STATE }

/-- HkPacket with every field zero, as produced by the memset in CS_AppInit. -/
def zeroHkPacket : CS_HkPacket_t :=
  { CmdCounter := 0, CmdErrCounter := 0, EepromCSState := 0, MemoryCSState := 0,
    AppCSState := 0, TablesCSState := 0, OSCSState := 0, CfeCoreCSState := 0,
    ChecksumState := 0, CurrentCSTable := 0, CurrentEntryInTable := 0,
    RecomputeInProgress := false, OneShotInProgress := false }

/-- CS_AppData with every field zero (memset in CS_AppInit); a zeroed CDS
handle is not a defined resource ID. -/
def zeroAppData : CS_AppData_t :=
  { HkPacket := zeroHkPacket, DataStoreHandle := CDSHandle.bad,
    MaxBytesPerCycle := 0, RunStatus := 0 }

/-- Shared failure tail of CS_CreateRestoreStatesFromCDS (lines 637-659):
mark the handle bad, fall back to the platform power-on states, send the
pending error event, and replace the result with CFE_SUCCESS. -/
def cdsFailureFallback (cfg : CS_PlatformCfg) (w : CS_World) (eventId : Nat) :
    CS_World × Int :=
  ({ w with
      app.DataStoreHandle := CDSHandle.bad
      app.HkPacket := setPoweronStates cfg w.app.HkPacket
      events := w.events ++ [⟨eventId, EventType.error⟩] }, CFE_SUCCESS)

/-- Embedding of CS_CreateRestoreStatesFromCDS (cs_app.c lines 576-662).
Registration on a fresh key allocates a zero-filled six-byte record and the
current six states are copied into it; on an existing key the six stored
bytes are read back over the in-memory states; any failure takes the
non-fatal fallback. -/
def CS_CreateRestoreStatesFromCDS (cfg : CS_PlatformCfg) (env : CDSEnv)
    (w : CS_World) : CS_World × Int :=
  match env.registerFault with
  | some _ => cdsFailureFallback cfg w CS_CR_CDS_REG_ERR_EID
  | none =>
    match w.cds with
    | none =>
      let w1 : CS_World :=
        { w with app.DataStoreHandle := CDSHandle.defined,
                 cds := some (List.replicate CS_NUM_DATA_STORE_STATES 0) }
      if env.copyResult = CFE_SUCCESS then
        ({ w1 with cds := some (stateBytes w1.app.HkPacket) }, CFE_SUCCESS)
      else
        cdsFailureFallback cfg w1 CS_CR_CDS_CPY_ERR_EID
    | some stored =>
      let w1 : CS_World := { w with app.DataStoreHandle := CDSHandle.defined }
      if env.restoreResult = CFE_SUCCESS then
        ({ w1 with app.HkPacket := applyStoredBytes w1.app.HkPacket stored },
         CFE_SUCCESS)
      else
        cdsFailureFallback cfg w1 CS_CR_CDS_RES_ERR_EID

/-- Embedding of CS_UpdateCDS (cs_app.c lines 670-707): when the handle is
defined, copy the six current states to the CDS; on a copy failure leave
the stored record untouched, send the error event and mark the handle bad;
when the handle is not defined, do nothing. -/
def CS_UpdateCDS (env : CDSEnv) (w : CS_World) : CS_World :=
  if w.app.DataStoreHandle = CDSHandle.defined then
    if env.copyResult = CFE_SUCCESS then
      { w with cds := some (stateBytes w.app.HkPacket) }
    else
      { w with
          events := w.events ++ [⟨CS_UPDATE_CDS_ERR_EID, EventType.error⟩]
          app.DataStoreHandle := CDSHandle.bad }
  else w

/-- Embedding of CS_AppInit (cs_app.c lines 228-296), with
CS_PRESERVE_STATES_ON_PROCESSOR_RESET compiled true. External calls whose
code is outside src/ (CFE_EVS_Register, CS_SbInit,
CS_InitializeDefaultTables, CS_InitAllTables, CS_InitSegments, the final
CFE_EVS_SendEvent) contribute only their result codes through env. -/
def CS_AppInit (cfg : CS_PlatformCfg) (env : InitEnv) (w : CS_World) :
    CS_World × Int :=
  if env.evsRegisterResult = CFE_SUCCESS then
    let w1 : CS_World :=
      { w with app := { zeroAppData with RunStatus := CFE_ES_RunStatus_APP_RUN } }
    if env.sbInitResult = CFE_SUCCESS then
      let w2 : CS_World := { w1 with app.HkPacket := setPoweronStates cfg w1.app.HkPacket }
      let pr := CS_CreateRestoreStatesFromCDS cfg env.cdsEnv w2
      if pr.2 = CFE_SUCCESS then
        if env.initAllTablesResult = CFE_SUCCESS then
          let w4 : CS_World :=
            { pr.1 with
                app.HkPacket.CurrentCSTable := 0
                app.HkPacket.CurrentEntryInTable := 0
                app.HkPacket.ChecksumState := CS_STATE_ENABLED
                app.HkPacket.RecomputeInProgress := false
                app.HkPacket.OneShotInProgress := false
                app.MaxBytesPerCycle := cfg.CS_DEFAULT_BYTES_PER_CYCLE }
          ({ w4 with events := w4.events ++ [⟨CS_INIT_INF_EID, EventType.info⟩] },
           env.sendEventResult)
        else (pr.1, env.initAllTablesResult)
      else pr
    else (w1, env.sbInitResult)
  else (w, env.evsRegisterResult)

/-- Embedding of CS_HousekeepingCmd (cs_app.c lines 539-566): a length
mismatch sends the length-error event and nothing else; a correct length
timestamps and transmits the housekeeping packet and nothing else. -/
def CS_HousekeepingCmd (msg : CS_Msg) (w : CS_World) : CS_World :=
  if sizeof_CS_NoArgsCmd ≠ msg.length then
    { w with events := w.events ++ [⟨CS_LEN_ERR_EID, EventType.error⟩] }
  else
    { w with hkPacketsSent := w.hkPacketsSent + 1 }

/-- State transformers of the external command handlers cs_app.c dispatches
to (cs_cmds.c, cs_eeprom_cmds.c, cs_memory_cmds.c, cs_table_cmds.c,
cs_app_cmds.c, cs_utils.c, cs_compute.c; all outside src/). -/
structure ExtHandlers where
  CS_NoopCmd : CS_World → CS_World
  CS_ResetCmd : CS_World → CS_World
  CS_OneShotCmd : CS_World → CS_World
  CS_CancelOneShotCmd : CS_World → CS_World
  CS_EnableAllCSCmd : CS_World → CS_World
  CS_DisableAllCSCmd : CS_World → CS_World
  CS_EnableCfeCoreCmd : CS_World → CS_World
  CS_DisableCfeCoreCmd : CS_World → CS_World
  CS_ReportBaselineCfeCoreCmd : CS_World → CS_World
  CS_RecomputeBaselineCfeCoreCmd : CS_World → CS_World
  CS_EnableOSCmd : CS_World → CS_World
  CS_DisableOSCmd : CS_World → CS_World
  CS_ReportBaselineOSCmd : CS_World → CS_World
  CS_RecomputeBaselineOSCmd : CS_World → CS_World
  CS_EnableEepromCmd : CS_World → CS_World
  CS_DisableEepromCmd : CS_World → CS_World
  CS_ReportBaselineEntryIDEepromCmd : CS_World → CS_World
  CS_RecomputeBaselineEepromCmd : CS_World → CS_World
  CS_EnableEntryIDEepromCmd : CS_World → CS_World
  CS_DisableEntryIDEepromCmd : CS_World → CS_World
  CS_GetEntryIDEepromCmd : CS_World → CS_World
  CS_EnableMemoryCmd : CS_World → CS_World
  CS_DisableMemoryCmd : CS_World → CS_World
  CS_ReportBaselineEntryIDMemoryCmd : CS_World → CS_World
  CS_RecomputeBaselineMemoryCmd : CS_World → CS_World
  CS_EnableEntryIDMemoryCmd : CS_World → CS_World
  CS_DisableEntryIDMemoryCmd : CS_World → CS_World
  CS_GetEntryIDMemoryCmd : CS_World → CS_World
  CS_EnableTablesCmd : CS_World → CS_World
  CS_DisableTablesCmd : CS_World → CS_World
  CS_ReportBaselineTablesCmd : CS_World → CS_World
  CS_RecomputeBaselineTablesCmd : CS_World → CS_World
  CS_EnableNameTablesCmd : CS_World → CS_World
  CS_DisableNameTablesCmd : CS_World → CS_World
  CS_EnableAppCmd : CS_World → CS_World
  CS_DisableAppCmd : CS_World → CS_World
  CS_ReportBaselineAppCmd : CS_World → CS_World
  CS_RecomputeBaselineAppCmd : CS_World → CS_World
  CS_EnableNameAppCmd : CS_World → CS_World
  CS_DisableNameAppCmd : CS_World → CS_World
  CS_BackgroundCheckCycle : CS_World → CS_World
  CS_HandleRoutineTableUpdates : CS_World → CS_World × Int

/-- Embedding of CS_ProcessCmd (cs_app.c lines 346-532): the switch on the
command function code; the default arm sends the invalid-command-code
event and increments the command-error counter. -/
def CS_ProcessCmd (ext : ExtHandlers) (msg : CS_Msg) (w : CS_World) : CS_World :=
  if msg.fcnCode = CS_NOOP_CC then ext.CS_NoopCmd w
  else if msg.fcnCode = CS_RESET_CC then ext.CS_ResetCmd w
  else if msg.fcnCode = CS_ONESHOT_CC then ext.CS_OneShotCmd w
  else if msg.fcnCode = CS_CANCEL_ONESHOT_CC then ext.CS_CancelOneShotCmd w
  else if msg.fcnCode = CS_ENABLE_ALL_CS_CC then ext.CS_EnableAllCSCmd w
  else if msg.fcnCode = CS_DISABLE_ALL_CS_CC then ext.CS_DisableAllCSCmd w
  else if msg.fcnCode = CS_ENABLE_CFECORE_CC then ext.CS_EnableCfeCoreCmd w
  else if msg.fcnCode = CS_DISABLE_CFECORE_CC then ext.CS_DisableCfeCoreCmd w
  else if msg.fcnCode = CS_REPORT_BASELINE_CFECORE_CC then ext.CS_ReportBaselineCfeCoreCmd w
  else if msg.fcnCode = CS_RECOMPUTE_BASELINE_CFECORE_CC then ext.CS_RecomputeBaselineCfeCoreCmd w
  else if msg.fcnCode = CS_ENABLE_OS_CC then ext.CS_EnableOSCmd w
  else if msg.fcnCode = CS_DISABLE_OS_CC then ext.CS_DisableOSCmd w
  else if msg.fcnCode = CS_REPORT_BASELINE_OS_CC then ext.CS_ReportBaselineOSCmd w
  else if msg.fcnCode = CS_RECOMPUTE_BASELINE_OS_CC then ext.CS_RecomputeBaselineOSCmd w
  else if msg.fcnCode = CS_ENABLE_EEPROM_CC then ext.CS_EnableEepromCmd w
  else if msg.fcnCode = CS_DISABLE_EEPROM_CC then ext.CS_DisableEepromCmd w
  else if msg.fcnCode = CS_REPORT_BASELINE_EEPROM_CC then ext.CS_ReportBaselineEntryIDEepromCmd w
  else if msg.fcnCode = CS_RECOMPUTE_BASELINE_EEPROM_CC then ext.CS_RecomputeBaselineEepromCmd w
  else if msg.fcnCode = CS_ENABLE_ENTRY_EEPROM_CC then ext.CS_EnableEntryIDEepromCmd w
  else if msg.fcnCode = CS_DISABLE_ENTRY_EEPROM_CC then ext.CS_DisableEntryIDEepromCmd w
  else if msg.fcnCode = CS_GET_ENTRY_ID_EEPROM_CC then ext.CS_GetEntryIDEepromCmd w
  else if msg.fcnCode = CS_ENABLE_MEMORY_CC then ext.CS_EnableMemoryCmd w
  else if msg.fcnCode = CS_DISABLE_MEMORY_CC then ext.CS_DisableMemoryCmd w
  else if msg.fcnCode = CS_REPORT_BASELINE_MEMORY_CC then ext.CS_ReportBaselineEntryIDMemoryCmd w
  else if msg.fcnCode = CS_RECOMPUTE_BASELINE_MEMORY_CC then ext.CS_RecomputeBaselineMemoryCmd w
  else if msg.fcnCode = CS_ENABLE_ENTRY_MEMORY_CC then ext.CS_EnableEntryIDMemoryCmd w
  else if msg.fcnCode = CS_DISABLE_ENTRY_MEMORY_CC then ext.CS_DisableEntryIDMemoryCmd w
  else if msg.fcnCode = CS_GET_ENTRY_ID_MEMORY_CC then ext.CS_GetEntryIDMemoryCmd w
  else if msg.fcnCode = CS_ENABLE_TABLES_CC then ext.CS_EnableTablesCmd w
  else if msg.fcnCode = CS_DISABLE_TABLES_CC then ext.CS_DisableTablesCmd w
  else if msg.fcnCode = CS_REPORT_BASELINE_TABLE_CC then ext.CS_ReportBaselineTablesCmd w
  else if msg.fcnCode = CS_RECOMPUTE_BASELINE_TABLE_CC then ext.CS_RecomputeBaselineTablesCmd w
  else if msg.fcnCode = CS_ENABLE_NAME_TABLE_CC then ext.CS_EnableNameTablesCmd w
  else if msg.fcnCode = CS_DISABLE_NAME_TABLE_CC then ext.CS_DisableNameTablesCmd w
  else if msg.fcnCode = CS_ENABLE_APPS_CC then ext.CS_EnableAppCmd w
  else if msg.fcnCode = CS_DISABLE_APPS_CC then ext.CS_DisableAppCmd w
  else if msg.fcnCode = CS_REPORT_BASELINE_APP_CC then ext.CS_ReportBaselineAppCmd w
  else if msg.fcnCode = CS_RECOMPUTE_BASELINE_APP_CC then ext.CS_RecomputeBaselineAppCmd w
  else if msg.fcnCode = CS_ENABLE_NAME_APP_CC then ext.CS_EnableNameAppCmd w
  else if msg.fcnCode = CS_DISABLE_NAME_APP_CC then ext.CS_DisableNameAppCmd w
  else
    { w with
        events := w.events ++ [⟨CS_CC1_ERR_EID, EventType.error⟩]
        app.HkPacket.CmdErrCounter := w.app.HkPacket.CmdErrCounter + 1 }

/-- Embedding of CS_AppPipe (cs_app.c lines 303-338): the switch on the
message ID; the default arm sends the invalid-message-ID event and
increments the command-error counter; Result stays CFE_SUCCESS except in
the housekeeping arm, where it comes from CS_HandleRoutineTableUpdates. -/
def CS_AppPipe (ext : ExtHandlers) (msg : CS_Msg) (w : CS_World) :
    CS_World × Int :=
  if msg.msgId = CS_SEND_HK_MID then
    ext.CS_HandleRoutineTableUpdates (CS_HousekeepingCmd msg w)
  else if msg.msgId = CS_BACKGROUND_CYCLE_MID then
    (ext.CS_BackgroundCheckCycle w, CFE_SUCCESS)
  else if msg.msgId = CS_CMD_MID then
    (CS_ProcessCmd ext msg w, CFE_SUCCESS)
  else
    ({ w with
        events := w.events ++ [⟨CS_MID_ERR_EID, EventType.error⟩]
        app.HkPacket.CmdErrCounter := w.app.HkPacket.CmdErrCounter + 1 },
     CFE_SUCCESS)

/-- Message IDs with a dedicated arm in CS_AppPipe. -/
def CS_KnownMsgIds : List Nat := [CS_SEND_HK_MID, CS_BACKGROUND_CYCLE_MID, CS_CMD_MID]

/-- Command codes with a dedicated arm in CS_ProcessCmd. -/
def CS_KnownCmdCodes : List Nat :=
  [CS_NOOP_CC, CS_RESET_CC, CS_ONESHOT_CC, CS_CANCEL_ONESHOT_CC,
   CS_ENABLE_ALL_CS_CC, CS_DISABLE_ALL_CS_CC,
   CS_ENABLE_CFECORE_CC, CS_DISABLE_CFECORE_CC,
   CS_REPORT_BASELINE_CFECORE_CC, CS_RECOMPUTE_BASELINE_CFECORE_CC,
   CS_ENABLE_OS_CC, CS_DISABLE_OS_CC,
   CS_REPORT_BASELINE_OS_CC, CS_RECOMPUTE_BASELINE_OS_CC,
   CS_ENABLE_EEPROM_CC, CS_DISABLE_EEPROM_CC,
   CS_REPORT_BASELINE_EEPROM_CC, CS_RECOMPUTE_BASELINE_EEPROM_CC,
   CS_ENABLE_ENTRY_EEPROM_CC, CS_DISABLE_ENTRY_EEPROM_CC,
   CS_GET_ENTRY_ID_EEPROM_CC,
   CS_ENABLE_MEMORY_CC, CS_DISABLE_MEMORY_CC,
   CS_REPORT_BASELINE_MEMORY_CC, CS_RECOMPUTE_BASELINE_MEMORY_CC,
   CS_ENABLE_ENTRY_MEMORY_CC, CS_DISABLE_ENTRY_MEMORY_CC,
   CS_GET_ENTRY_ID_MEMORY_CC,
   CS_ENABLE_TABLES_CC, CS_DISABLE_TABLES_CC,
   CS_REPORT_BASELINE_TABLE_CC, CS_RECOMPUTE_BASELINE_TABLE_CC,
   CS_ENABLE_NAME_TABLE_CC, CS_DISABLE_NAME_TABLE_CC,
   CS_ENABLE_APPS_CC, CS_DISABLE_APPS_CC,
   CS_REPORT_BASELINE_APP_CC, CS_RECOMPUTE_BASELINE_APP_CC,
   CS_ENABLE_NAME_APP_CC, CS_DISABLE_NAME_APP_CC]

/-- Concrete platform configuration used by the witnesses. -/
def cfg0 : CS_PlatformCfg := ⟨1, 2, 1, 2, 1, 2, 16384⟩

/-- Concrete fault-free CDS environment used by the witnesses. -/
def envOk : CDSEnv := ⟨none, 0, 0⟩

/-- Concrete fault-free initialization environment used by the witnesses. -/
def ienvOk : InitEnv := ⟨0, 0, 0, 0, envOk⟩

/-- Concrete world with no stored CDS record, used by the witnesses. -/
def w0 : CS_World := ⟨zeroAppData, none, [], 0⟩

/-- Concrete world with a defined CDS handle, used by the witnesses. -/
def wDef : CS_World := { w0 with app.DataStoreHandle := CDSHandle.defined }

/-- Concrete stored record holding bytes outside {ENABLED, DISABLED},
used by the witnesses. -/
def bOut : List Nat := [7, 250, 3, 99, 42, 17]

/-- Concrete world with a defined handle and a pre-existing stored record,
used by the witnesses. -/
def wStored : CS_World :=
  { w0 with app.DataStoreHandle := CDSHandle.defined, cds := some bOut }

/-- Concrete HkPacket with a mixed assignment of the six class states,
used by the witnesses. -/
def hkSample : CS_HkPacket_t :=
  { zeroHkPacket with EepromCSState := 2, MemoryCSState := 1, AppCSState := 2,
                      TablesCSState := 1, OSCSState := 2, CfeCoreCSState := 2 }

/-- Concrete world about to write its states to the CDS, used by the
witnesses. -/
def wWrite0 : CS_World :=
  { w0 with app.DataStoreHandle := CDSHandle.defined, app.HkPacket := hkSample }

/-- Concrete fresh-boot world sharing the store produced by wWrite0,
used by the witnesses. -/
def wBoot0 : CS_World := { w0 with cds := (CS_UpdateCDS envOk wWrite0).cds }

/-- Identity implementations for the external command handlers, used by the
witnesses (the dispatch claims hold for every choice of handlers). -/
def extId : ExtHandlers :=
  ⟨id, id, id, id, id, id, id, id, id, id, id, id, id, id, id, id, id, id,
   id, id, id, id, id, id, id, id, id, id, id, id, id, id, id, id, id, id,
   id, id, id, id, id, fun w => (w, CFE_SUCCESS)⟩

/-- Helper: a six-byte list is recovered exactly by reading back the six
positions applyStoredBytes fills. -/
theorem stateBytes_applyStoredBytes (hk : CS_HkPacket_t) (b : List Nat)
    (hlen : b.length = 6) : stateBytes (applyStoredBytes hk b) = b := by
  rcases b with _ | ⟨b0, _ | ⟨b1, _ | ⟨b2, _ | ⟨b3, _ | ⟨b4, _ | ⟨b5, rest⟩⟩⟩⟩⟩⟩ <;>
    simp_all [stateBytes, applyStoredBytes]

/-- Helper: CS_CreateRestoreStatesFromCDS returns CFE_SUCCESS on every path
(lines 637-659 replace every failure code with CFE_SUCCESS). -/
theorem createRestore_returns_success (cfg : CS_PlatformCfg) (env : CDSEnv)
    (w : CS_World) : (CS_CreateRestoreStatesFromCDS cfg env w).2 = CFE_SUCCESS := by
  unfold CS_CreateRestoreStatesFromCDS cdsFailureFallback
  cases env.registerFault <;> cases w.cds <;> simp <;> split <;> rfl

/-- Claim C2: at startup, CS_CreateRestoreStatesFromCDS branches on store
existence. With no record under the key it creates the six-byte record and
writes the current (compile-time default) per-class states into it, leaving
the in-memory states untouched; with an existing record it reads the six
stored bytes over the in-memory per-class states and leaves the stored
record unchanged. -/
theorem C2_create_restore_branches (cfg : CS_PlatformCfg) (env : CDSEnv)
    (w : CS_World) (b : List Nat)
    (hreg : env.registerFault = none)
    (hcopy : env.copyResult = CFE_SUCCESS)
    (hres : env.restoreResult = CFE_SUCCESS) :
    (w.cds = none →
      CS_CreateRestoreStatesFromCDS cfg env w =
        ({ w with app.DataStoreHandle := CDSHandle.defined,
                  cds := some (stateBytes w.app.HkPacket) }, CFE_SUCCESS))
    ∧ (w.cds = some b →
      CS_CreateRestoreStatesFromCDS cfg env w =
        ({ w with app.DataStoreHandle := CDSHandle.defined,
                  app.HkPacket := applyStoredBytes w.app.HkPacket b }, CFE_SUCCESS)) := by
  constructor
  · intro hnone
    simp [CS_CreateRestoreStatesFromCDS, hreg, hnone, hcopy]
  · intro hsome
    simp [CS_CreateRestoreStatesFromCDS, hreg, hsome, hres]

/-- Witness for C2 at concrete inputs. -/
theorem C2_create_restore_branches_witness :
    w0.cds = none ∧
    CS_CreateRestoreStatesFromCDS cfg0 envOk w0 =
      ({ w0 with app.DataStoreHandle := CDSHandle.defined,
                 cds := some (stateBytes w0.app.HkPacket) }, CFE_SUCCESS) :=
  ⟨rfl, (C2_create_restore_branches cfg0 envOk w0 [] rfl rfl rfl).1 rfl⟩

/-- Claim C3: every persistence failure during startup (registration
failure, copy failure on a new record, restore failure on an existing
record) is non-fatal: the handle becomes the invalid handle, the six class
states fall back to the compile-time power-on defaults, and the function
returns CFE_SUCCESS. -/
theorem C3_cds_failures_nonfatal (cfg : CS_PlatformCfg) (env : CDSEnv)
    (w : CS_World) (e : Int) (b : List Nat) :
    (env.registerFault = some e →
      CS_CreateRestoreStatesFromCDS cfg env w =
        ({ w with app.DataStoreHandle := CDSHandle.bad,
                  app.HkPacket := setPoweronStates cfg w.app.HkPacket,
                  events := w.events ++ [⟨CS_CR_CDS_REG_ERR_EID, EventType.error⟩] },
         CFE_SUCCESS))
    ∧ (env.registerFault = none → w.cds = none → env.copyResult ≠ CFE_SUCCESS →
      CS_CreateRestoreStatesFromCDS cfg env w =
        ({ w with app.DataStoreHandle := CDSHandle.bad,
                  cds := some (List.replicate CS_NUM_DATA_STORE_STATES 0),
                  app.HkPacket := setPoweronStates cfg w.app.HkPacket,
                  events := w.events ++ [⟨CS_CR_CDS_CPY_ERR_EID, EventType.error⟩] },
         CFE_SUCCESS))
    ∧ (env.registerFault = none → w.cds = some b → env.restoreResult ≠ CFE_SUCCESS →
      CS_CreateRestoreStatesFromCDS cfg env w =
        ({ w with app.DataStoreHandle := CDSHandle.bad,
                  app.HkPacket := setPoweronStates cfg w.app.HkPacket,
                  events := w.events ++ [⟨CS_CR_CDS_RES_ERR_EID, EventType.error⟩] },
         CFE_SUCCESS)) := by
  refine ⟨?_, ?_, ?_⟩
  · intro hreg
    simp [CS_CreateRestoreStatesFromCDS, cdsFailureFallback, hreg]
  · intro hreg hnone hcopy
    simp [CS_CreateRestoreStatesFromCDS, cdsFailureFallback, hreg, hnone, hcopy,
      setPoweronStates]
  · intro hreg hsome hres
    simp [CS_CreateRestoreStatesFromCDS, cdsFailureFallback, hreg, hsome, hres,
      setPoweronStates]

/-- Witness for C3 at a concrete registration failure. -/
theorem C3_cds_failures_nonfatal_witness :
    CS_CreateRestoreStatesFromCDS cfg0 ⟨some (-5), 0, 0⟩ w0 =
      ({ w0 with app.DataStoreHandle := CDSHandle.bad,
                 app.HkPacket := setPoweronStates cfg0 w0.app.HkPacket,
                 events := w0.events ++ [⟨CS_CR_CDS_REG_ERR_EID, EventType.error⟩] },
       CFE_SUCCESS) :=
  (C3_cds_failures_nonfatal cfg0 ⟨some (-5), 0, 0⟩ w0 (-5) []).1 rfl

/-- Claim C4: CS_UpdateCDS rewrites all six class-state bytes whenever the
handle is defined, is a no-op when it is not, invalidates the handle on a
write failure so that every later call performs no write, and never
modifies any in-memory HkPacket field. -/
theorem C4_update_cds_fail_once (env env2 : CDSEnv) (w : CS_World) :
    ((CS_UpdateCDS env w).app.HkPacket = w.app.HkPacket)
    ∧ (w.app.DataStoreHandle = CDSHandle.defined → env.copyResult = CFE_SUCCESS →
        CS_UpdateCDS env w = { w with cds := some (stateBytes w.app.HkPacket) })
    ∧ (w.app.DataStoreHandle ≠ CDSHandle.defined → CS_UpdateCDS env w = w)
    ∧ (w.app.DataStoreHandle = CDSHandle.defined → env.copyResult ≠ CFE_SUCCESS →
        CS_UpdateCDS env w =
          { w with events := w.events ++ [⟨CS_UPDATE_CDS_ERR_EID, EventType.error⟩],
                   app.DataStoreHandle := CDSHandle.bad }
        ∧ CS_UpdateCDS env2 (CS_UpdateCDS env w) = CS_UpdateCDS env w) := by
  refine ⟨?_, ?_, ?_, ?_⟩
  · unfold CS_UpdateCDS
    split_ifs <;> rfl
  · intro hH hc
    simp [CS_UpdateCDS, hH, hc]
  · intro hH
    simp [CS_UpdateCDS, hH]
  · intro hH hc
    constructor
    · simp [CS_UpdateCDS, hH, hc]
    · simp [CS_UpdateCDS, hH, hc]

/-- Witness for C4 at concrete inputs: a successful rewrite from a defined
handle, and the no-op after a failed write invalidated the handle. -/
theorem C4_update_cds_fail_once_witness :
    CS_UpdateCDS envOk wDef = { wDef with cds := some (stateBytes wDef.app.HkPacket) }
    ∧ (CS_UpdateCDS ⟨none, -3, 0⟩ wDef =
        { wDef with events := wDef.events ++ [⟨CS_UPDATE_CDS_ERR_EID, EventType.error⟩],
                    app.DataStoreHandle := CDSHandle.bad }
       ∧ CS_UpdateCDS envOk (CS_UpdateCDS ⟨none, -3, 0⟩ wDef) =
           CS_UpdateCDS ⟨none, -3, 0⟩ wDef) :=
  ⟨(C4_update_cds_fail_once envOk envOk wDef).2.1 rfl rfl,
   (C4_update_cds_fail_once ⟨none, -3, 0⟩ envOk wDef).2.2.2 rfl (by decide)⟩

/-- Claim C5: the persisted record is exactly six bytes, one per class in
the fixed order EEPROM, Memory, Apps, Tables, OS core, cFE core, and the
same layout is used by the startup write, the startup restore, and every
rewrite through CS_UpdateCDS. -/
theorem C5_record_layout (cfg : CS_PlatformCfg) (env : CDSEnv) (w : CS_World)
    (b : List Nat)
    (hreg : env.registerFault = none)
    (hcopy : env.copyResult = CFE_SUCCESS)
    (hres : env.restoreResult = CFE_SUCCESS)
    (hlen : b.length = CS_NUM_DATA_STORE_STATES) :
    (stateBytes w.app.HkPacket).length = CS_NUM_DATA_STORE_STATES
    ∧ stateBytes w.app.HkPacket =
        [w.app.HkPacket.EepromCSState, w.app.HkPacket.MemoryCSState,
         w.app.HkPacket.AppCSState, w.app.HkPacket.TablesCSState,
         w.app.HkPacket.OSCSState, w.app.HkPacket.CfeCoreCSState]
    ∧ (w.cds = none →
        (CS_CreateRestoreStatesFromCDS cfg env w).1.cds =
          some (stateBytes w.app.HkPacket))
    ∧ (w.app.DataStoreHandle = CDSHandle.defined →
        (CS_UpdateCDS env w).cds = some (stateBytes w.app.HkPacket))
    ∧ (w.cds = some b →
        stateBytes (CS_CreateRestoreStatesFromCDS cfg env w).1.app.HkPacket = b) := by
  refine ⟨rfl, rfl, ?_, ?_, ?_⟩
  · intro hnone
    simp [CS_CreateRestoreStatesFromCDS, hreg, hnone, hcopy]
  · intro hH
    simp [CS_UpdateCDS, hH, hcopy]
  · intro hsome
    simp [CS_CreateRestoreStatesFromCDS, hreg, hsome, hres]
    exact stateBytes_applyStoredBytes _ b hlen

/-- Witness for C5 at concrete inputs (a stored six-byte record and a
defined handle). -/
theorem C5_record_layout_witness :
    ((stateBytes wStored.app.HkPacket).length = CS_NUM_DATA_STORE_STATES)
    ∧ ((CS_UpdateCDS envOk wStored).cds = some (stateBytes wStored.app.HkPacket))
    ∧ (stateBytes (CS_CreateRestoreStatesFromCDS cfg0 envOk wStored).1.app.HkPacket
        = bOut) :=
  ⟨(C5_record_layout cfg0 envOk wStored bOut rfl rfl rfl rfl).1,
   (C5_record_layout cfg0 envOk wStored bOut rfl rfl rfl rfl).2.2.2.1 rfl,
   (C5_record_layout cfg0 envOk wStored bOut rfl rfl rfl rfl).2.2.2.2 rfl⟩

/-- Claim C9: a successful restore copies each of the six stored bytes
directly into the corresponding class state with no validation against
{ENABLED, DISABLED}; the in-memory states equal the raw stored bytes for
every stored record. -/
theorem C9_restore_no_validation (cfg : CS_PlatformCfg) (env : CDSEnv)
    (w : CS_World) (b : List Nat)
    (hreg : env.registerFault = none)
    (hres : env.restoreResult = CFE_SUCCESS)
    (hcds : w.cds = some b) :
    (CS_CreateRestoreStatesFromCDS cfg env w).1.app.HkPacket.EepromCSState = b.getD 0 0
    ∧ (CS_CreateRestoreStatesFromCDS cfg env w).1.app.HkPacket.MemoryCSState = b.getD 1 0
    ∧ (CS_CreateRestoreStatesFromCDS cfg env w).1.app.HkPacket.AppCSState = b.getD 2 0
    ∧ (CS_CreateRestoreStatesFromCDS cfg env w).1.app.HkPacket.TablesCSState = b.getD 3 0
    ∧ (CS_CreateRestoreStatesFromCDS cfg env w).1.app.HkPacket.OSCSState = b.getD 4 0
    ∧ (CS_CreateRestoreStatesFromCDS cfg env w).1.app.HkPacket.CfeCoreCSState = b.getD 5 0 := by
  simp [CS_CreateRestoreStatesFromCDS, hreg, hcds, hres, applyStoredBytes]

/-- Witness for C9 at a stored record whose bytes are all outside
{ENABLED, DISABLED}. -/
theorem C9_restore_no_validation_witness :
    (CS_CreateRestoreStatesFromCDS cfg0 envOk wStored).1.app.HkPacket.EepromCSState = bOut.getD 0 0
    ∧ (CS_CreateRestoreStatesFromCDS cfg0 envOk wStored).1.app.HkPacket.MemoryCSState = bOut.getD 1 0
    ∧ (CS_CreateRestoreStatesFromCDS cfg0 envOk wStored).1.app.HkPacket.AppCSState = bOut.getD 2 0
    ∧ (CS_CreateRestoreStatesFromCDS cfg0 envOk wStored).1.app.HkPacket.TablesCSState = bOut.getD 3 0
    ∧ (CS_CreateRestoreStatesFromCDS cfg0 envOk wStored).1.app.HkPacket.OSCSState = bOut.getD 4 0
    ∧ (CS_CreateRestoreStatesFromCDS cfg0 envOk wStored).1.app.HkPacket.CfeCoreCSState = bOut.getD 5 0 :=
  C9_restore_no_validation cfg0 envOk wStored bOut rfl rfl rfl

/-- Claim C1: persistence round-trip. Writing any assignment of the six
per-class states through CS_UpdateCDS (defined handle, successful write)
and then restoring on a fresh startup from the same stored record through
CS_CreateRestoreStatesFromCDS yields exactly the same six in-memory class
states, each read back from the byte position it was written to. -/
theorem C1_persistence_round_trip (cfg : CS_PlatformCfg) (env env2 : CDSEnv)
    (wWrite wBoot : CS_World)
    (hH : wWrite.app.DataStoreHandle = CDSHandle.defined)
    (hcopy : env.copyResult = CFE_SUCCESS)
    (hreg : env2.registerFault = none)
    (hres : env2.restoreResult = CFE_SUCCESS)
    (hboot : wBoot.cds = (CS_UpdateCDS env wWrite).cds) :
    (CS_CreateRestoreStatesFromCDS cfg env2 wBoot).1.app.HkPacket.EepromCSState
        = wWrite.app.HkPacket.EepromCSState
    ∧ (CS_CreateRestoreStatesFromCDS cfg env2 wBoot).1.app.HkPacket.MemoryCSState
        = wWrite.app.HkPacket.MemoryCSState
    ∧ (CS_CreateRestoreStatesFromCDS cfg env2 wBoot).1.app.HkPacket.AppCSState
        = wWrite.app.HkPacket.AppCSState
    ∧ (CS_CreateRestoreStatesFromCDS cfg env2 wBoot).1.app.HkPacket.TablesCSState
        = wWrite.app.HkPacket.TablesCSState
    ∧ (CS_CreateRestoreStatesFromCDS cfg env2 wBoot).1.app.HkPacket.OSCSState
        = wWrite.app.HkPacket.OSCSState
    ∧ (CS_CreateRestoreStatesFromCDS cfg env2 wBoot).1.app.HkPacket.CfeCoreCSState
        = wWrite.app.HkPacket.CfeCoreCSState := by
  rw [CS_UpdateCDS] at hboot
  simp [hH, hcopy] at hboot
  simp [CS_CreateRestoreStatesFromCDS, hreg, hboot, hres, applyStoredBytes, stateBytes]

/-- Witness for C1 at a concrete mixed assignment of the six states. -/
theorem C1_persistence_round_trip_witness :
    (CS_CreateRestoreStatesFromCDS cfg0 envOk wBoot0).1.app.HkPacket.EepromCSState
        = wWrite0.app.HkPacket.EepromCSState
    ∧ (CS_CreateRestoreStatesFromCDS cfg0 envOk wBoot0).1.app.HkPacket.MemoryCSState
        = wWrite0.app.HkPacket.MemoryCSState
    ∧ (CS_CreateRestoreStatesFromCDS cfg0 envOk wBoot0).1.app.HkPacket.AppCSState
        = wWrite0.app.HkPacket.AppCSState
    ∧ (CS_CreateRestoreStatesFromCDS cfg0 envOk wBoot0).1.app.HkPacket.TablesCSState
        = wWrite0.app.HkPacket.TablesCSState
    ∧ (CS_CreateRestoreStatesFromCDS cfg0 envOk wBoot0).1.app.HkPacket.OSCSState
        = wWrite0.app.HkPacket.OSCSState
    ∧ (CS_CreateRestoreStatesFromCDS cfg0 envOk wBoot0).1.app.HkPacket.CfeCoreCSState
        = wWrite0.app.HkPacket.CfeCoreCSState :=
  C1_persistence_round_trip cfg0 envOk envOk wWrite0 wBoot0 rfl rfl rfl rfl rfl

/-- Claim C7: after a fully successful CS_AppInit with no pre-existing
stored record, the global cycle state holds the configured startup values:
both cursors zero, no recompute or one-shot in progress, MaxBytesPerCycle
equal to the configured default, and each of the six per-class states equal
to its compile-time default. -/
theorem C7_appinit_startup_values (cfg : CS_PlatformCfg) (env : InitEnv)
    (w : CS_World)
    (h1 : env.evsRegisterResult = CFE_SUCCESS)
    (h2 : env.sbInitResult = CFE_SUCCESS)
    (h3 : env.initAllTablesResult = CFE_SUCCESS)
    (h4 : env.sendEventResult = CFE_SUCCESS)
    (h5 : env.cdsEnv.registerFault = none)
    (h6 : env.cdsEnv.copyResult = CFE_SUCCESS)
    (h7 : w.cds = none) :
    (CS_AppInit cfg env w).2 = CFE_SUCCESS
    ∧ (CS_AppInit cfg env w).1.app.HkPacket.CurrentCSTable = 0
    ∧ (CS_AppInit cfg env w).1.app.HkPacket.CurrentEntryInTable = 0
    ∧ (CS_AppInit cfg env w).1.app.HkPacket.RecomputeInProgress = false
    ∧ (CS_AppInit cfg env w).1.app.HkPacket.OneShotInProgress = false
    ∧ (CS_AppInit cfg env w).1.app.MaxBytesPerCycle = cfg.CS_DEFAULT_BYTES_PER_CYCLE
    ∧ (CS_AppInit cfg env w).1.app.HkPacket.EepromCSState = cfg.CS_EEPROM_TBL_POWERON_STATE
    ∧ (CS_AppInit cfg env w).1.app.HkPacket.MemoryCSState = cfg.CS_MEMORY_TBL_POWERON_STATE
    ∧ (CS_AppInit cfg env w).1.app.HkPacket.AppCSState = cfg.CS_APPS_TBL_POWERON_STATE
    ∧ (CS_AppInit cfg env w).1.app.HkPacket.TablesCSState = cfg.CS_TABLES_TBL_POWERON_STATE
    ∧ (CS_AppInit cfg env w).1.app.HkPacket.OSCSState = cfg.CS_OSCS_CHECKSUM_STATE
    ∧ (CS_AppInit cfg env w).1.app.HkPacket.CfeCoreCSState = cfg.CS_CFECORE_CHECKSUM_STATE := by
  simp [CS_AppInit, CS_CreateRestoreStatesFromCDS, h1, h2, h3, h4, h5, h6, h7,
    setPoweronStates, stateBytes]

/-- Witness for C7 at concrete fault-free inputs. -/
theorem C7_appinit_startup_values_witness :
    (CS_AppInit cfg0 ienvOk w0).2 = CFE_SUCCESS
    ∧ (CS_AppInit cfg0 ienvOk w0).1.app.HkPacket.CurrentCSTable = 0
    ∧ (CS_AppInit cfg0 ienvOk w0).1.app.HkPacket.CurrentEntryInTable = 0
    ∧ (CS_AppInit cfg0 ienvOk w0).1.app.HkPacket.RecomputeInProgress = false
    ∧ (CS_AppInit cfg0 ienvOk w0).1.app.HkPacket.OneShotInProgress = false
    ∧ (CS_AppInit cfg0 ienvOk w0).1.app.MaxBytesPerCycle = cfg0.CS_DEFAULT_BYTES_PER_CYCLE
    ∧ (CS_AppInit cfg0 ienvOk w0).1.app.HkPacket.EepromCSState = cfg0.CS_EEPROM_TBL_POWERON_STATE
    ∧ (CS_AppInit cfg0 ienvOk w0).1.app.HkPacket.MemoryCSState = cfg0.CS_MEMORY_TBL_POWERON_STATE
    ∧ (CS_AppInit cfg0 ienvOk w0).1.app.HkPacket.AppCSState = cfg0.CS_APPS_TBL_POWERON_STATE
    ∧ (CS_AppInit cfg0 ienvOk w0).1.app.HkPacket.TablesCSState = cfg0.CS_TABLES_TBL_POWERON_STATE
    ∧ (CS_AppInit cfg0 ienvOk w0).1.app.HkPacket.OSCSState = cfg0.CS_OSCS_CHECKSUM_STATE
    ∧ (CS_AppInit cfg0 ienvOk w0).1.app.HkPacket.CfeCoreCSState = cfg0.CS_CFECORE_CHECKSUM_STATE :=
  C7_appinit_startup_values cfg0 ienvOk w0 rfl rfl rfl rfl rfl rfl rfl

/-- Claim C10: the master sweep gate ChecksumState is set to ENABLED on
every successful initialization, and it is not among the six persisted
bytes: the startup restore never changes it, and the record written by
CS_UpdateCDS does not depend on it. -/
theorem C10_master_gate_enabled (cfg : CS_PlatformCfg) (ienv : InitEnv)
    (env : CDSEnv) (w w2 : CS_World) (x : Nat) :
    ((CS_AppInit cfg ienv w).2 = CFE_SUCCESS →
      (CS_AppInit cfg ienv w).1.app.HkPacket.ChecksumState = CS_STATE_ENABLED)
    ∧ (CS_CreateRestoreStatesFromCDS cfg env w2).1.app.HkPacket.ChecksumState
        = w2.app.HkPacket.ChecksumState
    ∧ (CS_UpdateCDS env { w2 with app.HkPacket.ChecksumState := x }).cds
        = (CS_UpdateCDS env w2).cds := by
  refine ⟨?_, ?_, ?_⟩
  · intro h
    by_cases h1 : ienv.evsRegisterResult = CFE_SUCCESS
    · by_cases h2 : ienv.sbInitResult = CFE_SUCCESS
      · by_cases h3 : ienv.initAllTablesResult = CFE_SUCCESS
        · simp [CS_AppInit, h1, h2, h3, createRestore_returns_success]
        · simp [CS_AppInit, h1, h2, h3, createRestore_returns_success] at h
      · simp [CS_AppInit, h1, h2] at h
    · simp [CS_AppInit, h1] at h
  · unfold CS_CreateRestoreStatesFromCDS cdsFailureFallback
    cases env.registerFault <;> cases hc : w2.cds <;>
      simp [applyStoredBytes, setPoweronStates] <;> split <;>
      simp [applyStoredBytes, setPoweronStates]
  · unfold CS_UpdateCDS
    simp [stateBytes]
    split_ifs <;> simp [stateBytes]

/-- Witness for C10 at concrete fault-free inputs. -/
theorem C10_master_gate_enabled_witness :
    (CS_AppInit cfg0 ienvOk w0).1.app.HkPacket.ChecksumState = CS_STATE_ENABLED :=
  (C10_master_gate_enabled cfg0 ienvOk envOk w0 w0 3).1 rfl

/-- Claim C8: a housekeeping request whose actual length differs from the
expected length sends the length-error event, does not transmit the
housekeeping packet and changes neither counter; a correctly sized request
transmits the packet and likewise changes no counters. -/
theorem C8_housekeeping_length_check (msg : CS_Msg) (w : CS_World) :
    (msg.length ≠ sizeof_CS_NoArgsCmd →
      CS_HousekeepingCmd msg w =
        { w with events := w.events ++ [⟨CS_LEN_ERR_EID, EventType.error⟩] })
    ∧ (msg.length = sizeof_CS_NoArgsCmd →
      CS_HousekeepingCmd msg w = { w with hkPacketsSent := w.hkPacketsSent + 1 }) := by
  constructor
  · intro h
    simp [CS_HousekeepingCmd, Ne.symm h]
  · intro h
    simp [CS_HousekeepingCmd, h]

/-- Witness for C8: one request one byte too long, one correctly sized. -/
theorem C8_housekeeping_length_check_witness :
    CS_HousekeepingCmd ⟨CS_SEND_HK_MID, 0, 9⟩ w0 =
      { w0 with events := w0.events ++ [⟨CS_LEN_ERR_EID, EventType.error⟩] }
    ∧ CS_HousekeepingCmd ⟨CS_SEND_HK_MID, 0, 8⟩ w0 =
      { w0 with hkPacketsSent := w0.hkPacketsSent + 1 } :=
  ⟨(C8_housekeeping_length_check ⟨CS_SEND_HK_MID, 0, 9⟩ w0).1 (by decide),
   (C8_housekeeping_length_check ⟨CS_SEND_HK_MID, 0, 8⟩ w0).2 rfl⟩

/-- Claim C6: dispatch of a message with an unrecognized message ID
(CS_AppPipe default arm) or of a CS command with an unrecognized command
code (CS_ProcessCmd default arm) increments CmdErrCounter by exactly one
and sends an error event, with no other application state changed; this
holds for every choice of external command handlers. -/
theorem C6_unrecognized_dispatch (ext : ExtHandlers) (m c : CS_Msg) (w : CS_World)
    (hm : m.msgId ∉ CS_KnownMsgIds)
    (hc : c.msgId = CS_CMD_MID)
    (hcc : c.fcnCode ∉ CS_KnownCmdCodes) :
    CS_AppPipe ext m w =
      ({ w with events := w.events ++ [⟨CS_MID_ERR_EID, EventType.error⟩],
                app.HkPacket.CmdErrCounter := w.app.HkPacket.CmdErrCounter + 1 },
       CFE_SUCCESS)
    ∧ CS_AppPipe ext c w =
      ({ w with events := w.events ++ [⟨CS_CC1_ERR_EID, EventType.error⟩],
                app.HkPacket.CmdErrCounter := w.app.HkPacket.CmdErrCounter + 1 },
       CFE_SUCCESS) := by
  constructor
  · simp only [CS_KnownMsgIds, List.mem_cons, List.not_mem_nil, or_false,
      not_or, CS_SEND_HK_MID, CS_BACKGROUND_CYCLE_MID, CS_CMD_MID] at hm
    simp [CS_AppPipe, CS_SEND_HK_MID, CS_BACKGROUND_CYCLE_MID, CS_CMD_MID,
      hm.1, hm.2.1, hm.2.2]
  · have hge : 40 ≤ c.fcnCode := by
      simp only [CS_KnownCmdCodes, List.mem_cons, List.not_mem_nil, or_false,
        not_or, CS_NOOP_CC, CS_RESET_CC, CS_ONESHOT_CC, CS_CANCEL_ONESHOT_CC,
        CS_ENABLE_ALL_CS_CC, CS_DISABLE_ALL_CS_CC, CS_ENABLE_CFECORE_CC,
        CS_DISABLE_CFECORE_CC, CS_REPORT_BASELINE_CFECORE_CC,
        CS_RECOMPUTE_BASELINE_CFECORE_CC, CS_ENABLE_OS_CC, CS_DISABLE_OS_CC,
        CS_REPORT_BASELINE_OS_CC, CS_RECOMPUTE_BASELINE_OS_CC,
        CS_ENABLE_EEPROM_CC, CS_DISABLE_EEPROM_CC, CS_REPORT_BASELINE_EEPROM_CC,
        CS_RECOMPUTE_BASELINE_EEPROM_CC, CS_ENABLE_ENTRY_EEPROM_CC,
        CS_DISABLE_ENTRY_EEPROM_CC, CS_GET_ENTRY_ID_EEPROM_CC,
        CS_ENABLE_MEMORY_CC, CS_DISABLE_MEMORY_CC, CS_REPORT_BASELINE_MEMORY_CC,
        CS_RECOMPUTE_BASELINE_MEMORY_CC, CS_ENABLE_ENTRY_MEMORY_CC,
        CS_DISABLE_ENTRY_MEMORY_CC, CS_GET_ENTRY_ID_MEMORY_CC,
        CS_ENABLE_TABLES_CC, CS_DISABLE_TABLES_CC, CS_REPORT_BASELINE_TABLE_CC,
        CS_RECOMPUTE_BASELINE_TABLE_CC, CS_ENABLE_NAME_TABLE_CC,
        CS_DISABLE_NAME_TABLE_CC, CS_ENABLE_APPS_CC, CS_DISABLE_APPS_CC,
        CS_REPORT_BASELINE_APP_CC, CS_RECOMPUTE_BASELINE_APP_CC,
        CS_ENABLE_NAME_APP_CC, CS_DISABLE_NAME_APP_CC] at hcc
      omega
    rw [CS_AppPipe]
    rw [if_neg (by simp [hc, CS_CMD_MID, CS_SEND_HK_MID]),
        if_neg (by simp [hc, CS_CMD_MID, CS_BACKGROUND_CYCLE_MID]),
        if_pos hc]
    rw [CS_ProcessCmd]
    simp only [CS_NOOP_CC, CS_RESET_CC, CS_ONESHOT_CC, CS_CANCEL_ONESHOT_CC,
      CS_ENABLE_ALL_CS_CC, CS_DISABLE_ALL_CS_CC, CS_ENABLE_CFECORE_CC,
      CS_DISABLE_CFECORE_CC, CS_REPORT_BASELINE_CFECORE_CC,
      CS_RECOMPUTE_BASELINE_CFECORE_CC, CS_ENABLE_OS_CC, CS_DISABLE_OS_CC,
      CS_REPORT_BASELINE_OS_CC, CS_RECOMPUTE_BASELINE_OS_CC,
      CS_ENABLE_EEPROM_CC, CS_DISABLE_EEPROM_CC, CS_REPORT_BASELINE_EEPROM_CC,
      CS_RECOMPUTE_BASELINE_EEPROM_CC, CS_ENABLE_ENTRY_EEPROM_CC,
      CS_DISABLE_ENTRY_EEPROM_CC, CS_GET_ENTRY_ID_EEPROM_CC,
      CS_ENABLE_MEMORY_CC, CS_DISABLE_MEMORY_CC, CS_REPORT_BASELINE_MEMORY_CC,
      CS_RECOMPUTE_BASELINE_MEMORY_CC, CS_ENABLE_ENTRY_MEMORY_CC,
      CS_DISABLE_ENTRY_MEMORY_CC, CS_GET_ENTRY_ID_MEMORY_CC,
      CS_ENABLE_TABLES_CC, CS_DISABLE_TABLES_CC, CS_REPORT_BASELINE_TABLE_CC,
      CS_RECOMPUTE_BASELINE_TABLE_CC, CS_ENABLE_NAME_TABLE_CC,
      CS_DISABLE_NAME_TABLE_CC, CS_ENABLE_APPS_CC, CS_DISABLE_APPS_CC,
      CS_REPORT_BASELINE_APP_CC, CS_RECOMPUTE_BASELINE_APP_CC,
      CS_ENABLE_NAME_APP_CC, CS_DISABLE_NAME_APP_CC]
    repeat rw [if_neg (show ¬c.fcnCode = _ by omega)]

/-- Witness for C6: a message ID outside the three dispatched IDs, and a CS
command with code 99, against the identity handlers. -/
theorem C6_unrecognized_dispatch_witness :
    CS_AppPipe extId ⟨0x1900, 0, 8⟩ w0 =
      ({ w0 with events := w0.events ++ [⟨CS_MID_ERR_EID, EventType.error⟩],
                 app.HkPacket.CmdErrCounter := w0.app.HkPacket.CmdErrCounter + 1 },
       CFE_SUCCESS)
    ∧ CS_AppPipe extId ⟨CS_CMD_MID, 99, 8⟩ w0 =
      ({ w0 with events := w0.events ++ [⟨CS_CC1_ERR_EID, EventType.error⟩],
                 app.HkPacket.CmdErrCounter := w0.app.HkPacket.CmdErrCounter + 1 },
       CFE_SUCCESS) :=
  C6_unrecognized_dispatch extId ⟨0x1900, 0, 8⟩ ⟨CS_CMD_MID, 99, 8⟩ w0
    (by decide) rfl (by decide)
